/-
Verification of the IoTorch linux-mctp server-connection components
(MctpSerialLink.py and MctpBusController.py) via a shallow embedding.

External effects (subprocess spawns, OS interface enumeration, D-Bus calls,
socket sends, wall-clock time) are modelled as explicit environment inputs;
fixed-interval sleeps are modelled by counting loop iterations (fuel).
-/
import Mathlib

/-! ## Config file parsing (MctpBusController._configure_eid_range) -/

/-- Abstract shape of one line of the config file, as seen by
`_configure_eid_range`: either the line does not start with the keyword
`dynamic_eid_range`, or it does and the regex
`\[\s*(\d+)\s*,\s*(\d+)\s*\]` fails to match, or it does and the regex
yields the two digit groups `a` and `b`. -/
inductive ConfigLine
  | other
  | declMalformed
  | decl (a b : Nat)
deriving DecidableEq, Repr

/-- Outcome of the `try`-body of `_configure_eid_range` (the loop over
lines, lines 153-167 of MctpBusController.py): either the range is
assigned (start, end after min/max normalization), or an AssertionError
is raised for a malformed declaration, invalid (zero) values, or a
missing declaration. -/
inductive ConfigCoreResult
  | ok (first last : Nat)
  | errMalformed
  | errInvalidValues
  | errNotFound
deriving DecidableEq, Repr

/-- The loop body of `_configure_eid_range`: scan lines in order, the first
line starting with `dynamic_eid_range` wins; parse it, normalize the two
bounds with min/max, assert both positive; reaching the end of the file
raises "dynamic_eid_range not found". -/
def configureEidRangeCore : List ConfigLine → ConfigCoreResult
  | [] => ConfigCoreResult.errNotFound
  | ConfigLine.other :: rest => configureEidRangeCore rest
  | ConfigLine.declMalformed :: _ => ConfigCoreResult.errMalformed
  | ConfigLine.decl a b :: _ =>
      let start := min a b
      let stop := max a b
      if 0 < start ∧ 0 < stop then ConfigCoreResult.ok start stop
      else ConfigCoreResult.errInvalidValues

/-- Python `range(start, stop+1)` as the inclusive list of EIDs. -/
def eidRangeList (start stop : Nat) : List Nat :=
  List.range' start (stop + 1 - start)

/-- Observable outcome of a call to `_configure_eid_range`.  The whole body
sits inside `try ... except FileNotFoundError ... except Exception`, and
both handlers merely print and return.  An AssertionError raised by the
loop body is an `Exception`, so it is caught and swallowed: the method
returns normally and `self._eid_range` keeps its initial value `[]`. -/
inductive ConfigOutcome
  | assigned (r : List Nat)
  | swallowed
deriving DecidableEq, Repr

/-- `_configure_eid_range` (lines 145-171): `fileLines = none` models a
FileNotFoundError on `open`; otherwise the loop body runs and any raised
AssertionError is caught by `except Exception` (printed, then a normal
return with the range still empty). -/
def configure_eid_range (fileLines : Option (List ConfigLine)) : ConfigOutcome :=
  match fileLines with
  | none => ConfigOutcome.swallowed
  | some lines =>
      match configureEidRangeCore lines with
      | ConfigCoreResult.ok start stop => ConfigOutcome.assigned (eidRangeList start stop)
      | _ => ConfigOutcome.swallowed

/-! ## Serial link lifecycle (MctpSerialLink) -/

/-- The failure raised by each `assert` in `MctpSerialLink.__init__`,
in source order. -/
inductive InitError
  | resourceExhausted
  | notFound
  | timeout
  | linkUpFailed
  | addrAddFailed
deriving DecidableEq, Repr

/-- Instance fields of an MctpSerialLink (`_eid`, `_link_pid`,
`_link_name`, `_device_path`), each `None`-able exactly as in Python. -/
structure LinkState where
  eid : Option Nat
  linkPid : Option Nat
  linkName : Option String
  devicePath : Option String
deriving DecidableEq, Repr

/-- The link whose four fields are all `None`; this is the state right
after the first four lines of `__init__`, and also the state `close`
leaves behind. -/
def emptyLink : LinkState := ⟨none, none, none, none⟩

/-- Environment of one `MctpSerialLink.__init__` run: whether
`os.path.exists(device_path)` holds, the pid `subprocess.Popen` returns,
whether a new interface appears within the 2 s poll window (and its name),
and the exit status of the two `mctp` configuration commands. -/
structure LinkEnv where
  devExists : Bool
  popenPid : Nat
  newInterface : Option String
  linkUpOk : Bool
  addrAddOk : Bool

/-- `MctpSerialLink.__init__` (lines 59-102).  Source order: compute
`remaining_eids = set(allowed) - set(allocated)` and assert it nonempty
(the EID-availability check comes FIRST), pick `remaining_eids[0]`
(Python set iteration order is unspecified; modelled as the first
remaining element in list order), then assert the device path exists,
record the path, spawn the bind process, wait for a new interface,
bring the link up, assign the address, and only then register the EID
in the class-wide allocated list.  Returns the raised assertion (if any),
the final instance fields, and the allocated list after the call. -/
def serialLinkInit (env : LinkEnv) (devicePath : String)
    (allowedEids allocated : List Nat) :
    Except InitError Unit × LinkState × List Nat :=
  let remaining := allowedEids.filter (fun e => decide (e ∉ allocated))
  match remaining with
  | [] => (Except.error InitError.resourceExhausted, emptyLink, allocated)
  | nextEid :: _ =>
      if env.devExists = false then
        (Except.error InitError.notFound, emptyLink, allocated)
      else
        let st1 : LinkState := { emptyLink with devicePath := some devicePath }
        let st2 : LinkState := { st1 with linkPid := some env.popenPid }
        match env.newInterface with
        | none => (Except.error InitError.timeout, st2, allocated)
        | some ifname =>
            let st3 : LinkState := { st2 with linkName := some ifname }
            if env.linkUpOk = false then
              (Except.error InitError.linkUpFailed, st3, allocated)
            else if env.addrAddOk = false then
              (Except.error InitError.addrAddFailed, st3, allocated)
            else
              (Except.ok (), { st3 with eid := some nextEid },
               allocated ++ [nextEid])

/-- `MctpSerialLink.close` (lines 173-187): kill the bind process if a pid
is recorded (pure external effect), remove the link's EID from the
class-wide allocated list if present (`list.remove` drops the first
occurrence, which `List.erase` matches), and clear all four fields. -/
def serialLinkClose (l : LinkState) (allocated : List Nat) :
    LinkState × List Nat :=
  let alloc1 :=
    match l.eid with
    | some e => if e ∈ allocated then allocated.erase e else allocated
    | none => allocated
  (emptyLink, alloc1)

/-- An `__init__` attempt (successful or failed at any step) immediately
followed by `close()` on the resulting object, observing the final link
fields and allocated list. -/
def initThenClose (env : LinkEnv) (devicePath : String)
    (allowedEids allocated : List Nat) : LinkState × List Nat :=
  let r := serialLinkInit env devicePath allowedEids allocated
  serialLinkClose r.2.1 r.2.2

/-! ## The process-wide EID pool and live-link registry
(MctpSerialLink._allocated_eids / _assigned_links) -/

/-- The class-wide mutable state of MctpSerialLink: the list of allocated
EIDs and, for each live (registered) link, its EID.  `__init__` appends to
both lists together (lines 100-102) and `close` removes from both together
(lines 180-183), so the two lists evolve in lockstep. -/
structure PoolState where
  allocated : List Nat
  liveEids : List Nat
deriving DecidableEq, Repr

/-- State at module load: no links created, no EIDs allocated. -/
def initialPool : PoolState := ⟨[], []⟩

/-- One successful operation on the class-wide state.  A successful
`__init__(device_path, allowed)` called (as the controller does) with the
configured range as `allowed` appends an EID drawn from
`set(allowed) - set(allocated)` — so some `eid ∈ range` with
`eid ∉ allocated` — to both lists; a failed `__init__` raises before
touching either list.  `close` on a link removes the link from the
registry and its EID from the allocated list (`List.erase` is the
identity when the EID is absent, matching the membership guards and a
closed link's `_eid = None`). -/
inductive PoolStep (range : List Nat) : PoolState → PoolState → Prop
  | openLink (st : PoolState) (eid : Nat)
      (hmem : eid ∈ range) (hfree : eid ∉ st.allocated) :
      PoolStep range st ⟨st.allocated ++ [eid], st.liveEids ++ [eid]⟩
  | closeLink (st : PoolState) (eid : Nat) :
      PoolStep range st ⟨st.allocated.erase eid, st.liveEids.erase eid⟩

/-- States reachable from module load by any sequence of link
open/close operations. -/
def PoolReachable (range : List Nat) : PoolState → Prop :=
  Relation.ReflTransGen (PoolStep range) initialPool

/-! ## Endpoint correlation (MctpBusController._get_properties /
_get_link_from_eid) -/

/-- The view of a serial link that endpoint correlation consults:
`get_eid()`, `get_link_name()`, `get_device_path()`. -/
structure SerialLinkView where
  eid : Option Nat
  linkName : Option String
  devicePath : Option String
deriving DecidableEq, Repr

/-- `MctpBusController._get_link_from_eid` (lines 298-308): scan
`self._serial_links` in order and return the first link whose
`get_eid()` equals the endpoint's EID; `None` when no link matches.
(A closed link has `_eid = None`, and `None == eid` is false.) -/
def get_link_from_eid (links : List SerialLinkView) (eid : Nat) :
    Option SerialLinkView :=
  links.find? (fun l => l.eid == some eid)

/-- The result record `_get_properties` builds for one endpoint whose
property read succeeded: the mandatory keys `eid`, `network_id`, `path`,
and — only when a local link matched — the pair of keys
`link_name` / `device_path` (`correlated = none` models both keys being
absent from the dictionary). -/
structure EndpointRecord where
  eid : Nat
  networkId : Nat
  path : String
  correlated : Option (Option String × Option String)
deriving DecidableEq, Repr

/-- `MctpBusController._get_properties` (lines 246-270), success path:
after reading `eid` and `network_id`, look up a local serial link with the
same EID; when one is found, add its `get_link_name()` and
`get_device_path()` under the `link_name` / `device_path` keys, otherwise
leave both keys out of the record. -/
def get_properties (links : List SerialLinkView) (eid networkId : Nat)
    (path : String) : EndpointRecord :=
  match get_link_from_eid links eid with
  | some l => ⟨eid, networkId, path, some (l.linkName, l.devicePath)⟩
  | none => ⟨eid, networkId, path, none⟩

/-! ## Stabilization loop (MctpBusController.__init__, lines 129-141) -/

/-- The enumeration-stabilization loop.  `poll i` is the endpoint count
returned by the i-th `discover_endpoints()` call (i counted from 0);
`prev` is `previous_count` (initially `-1`); `fuel` is the number of
further iterations the 30-second window still allows, each iteration
costing one `time.sleep(1)`.  Source order within an iteration: poll,
break on equality with the previous count (returning the stable count),
otherwise raise the timeout once the window is exhausted, else sleep and
iterate.  `none` models the `AssertionError("Endpoint discovery did not
stabilize within 30 seconds.")` raised after `self.close()`. -/
def stabilizeLoop (poll : Nat → Nat) : Int → Nat → Nat → Option Nat
  | prev, k, 0 =>
      if (poll k : Int) = prev then some (poll k) else none
  | prev, k, fuel + 1 =>
      if (poll k : Int) = prev then some (poll k)
      else stabilizeLoop poll (poll k) (k + 1) fuel

/-! ## Controller construction and teardown (MctpBusController) -/

/-- Failures `MctpBusController.__init__` can raise, in source order:
the singleton assert (line 103), the no-patterns assert (line 104), the
no-matching-devices assert (line 111), the insufficient-EIDs assert
(line 113), an assertion escaping a `MctpSerialLink.__init__` call
(line 117), and the stabilization timeout (line 139).  Note there is no
config-error constructor: `_configure_eid_range` swallows its own
assertion failures (see `configure_eid_range`). -/
inductive CtrlError
  | singleton
  | noPatterns
  | noDevices
  | insufficientResources
  | link (e : InitError)
  | stabilizationTimeout
deriving DecidableEq, Repr

/-- Externally visible steps of controller construction, recorded in
order: an attempted `MctpSerialLink` bind for a device path, and the
`systemctl stop`/`start` of mctpd. -/
inductive CtrlEffect
  | openLink (path : String)
  | stopService
  | startService
deriving DecidableEq, Repr

/-- Environment of one `MctpBusController.__init__` run: whether the
singleton slot `_instance` is occupied, the `*args` patterns, the config
file contents, the deduplicated glob matches, the per-link environments
(indexed by position in the device list), whether mctpd is initially
active, the endpoint count of each discovery poll, and the number of loop
iterations the 30-second stabilization window allows. -/
structure CtrlEnv where
  instanceExists : Bool
  patterns : List String
  fileLines : Option (List ConfigLine)
  matchedDevices : List String
  linkEnvs : Nat → LinkEnv
  serviceActive : Bool
  polls : Nat → Nat
  window : Nat

/-- The value `self._eid_range` holds after `_configure_eid_range`
returns: the parsed inclusive range, or the initial `[]` when the parse
failed and the exception was swallowed. -/
def configRange (env : CtrlEnv) : List Nat :=
  match configure_eid_range env.fileLines with
  | ConfigOutcome.assigned r => r
  | ConfigOutcome.swallowed => []

/-- The `for file_path in file_list` loop of `__init__` (lines 116-117):
open one serial link per matched device, sequentially, threading the
class-wide allocated list; an assertion raised by any
`MctpSerialLink.__init__` propagates and aborts the loop.  Each attempted
bind is recorded as an `openLink` effect. -/
def openLinks (lenvs : Nat → LinkEnv) (devices : List String)
    (range allocated : List Nat) (i : Nat) :
    Except InitError (List LinkState × List Nat) × List CtrlEffect :=
  match devices with
  | [] => (Except.ok ([], allocated), [])
  | d :: rest =>
      match serialLinkInit (lenvs i) d range allocated with
      | (Except.error e, _, _) =>
          (Except.error e, [CtrlEffect.openLink d])
      | (Except.ok _, l, alloc1) =>
          match openLinks lenvs rest range alloc1 (i + 1) with
          | (Except.error e, effs) =>
              (Except.error e, CtrlEffect.openLink d :: effs)
          | (Except.ok (ls, allocFin), effs) =>
              (Except.ok (l :: ls, allocFin), CtrlEffect.openLink d :: effs)

/-- `MctpBusController.__init__` (lines 89-143), with external effects
recorded in order.  Source order: singleton assert, patterns assert,
`_configure_eid_range` (never raises), glob + dedup, no-devices assert,
insufficient-EIDs assert, sequential link opens, conditional
`_stop_service` then `_start_service`, D-Bus connect, stabilization loop
(on timeout: `self.close()` — which stops the service again — then
raise), and finally `_instance = self`.  On success the result carries
the opened links and the allocated EIDs. -/
def controllerInit (env : CtrlEnv) :
    Except CtrlError (List LinkState × List Nat) × List CtrlEffect :=
  if env.instanceExists then (Except.error CtrlError.singleton, [])
  else if env.patterns = [] then (Except.error CtrlError.noPatterns, [])
  else
    let range := configRange env
    if env.matchedDevices = [] then (Except.error CtrlError.noDevices, [])
    else if range.length < env.matchedDevices.length then
      (Except.error CtrlError.insufficientResources, [])
    else
      match openLinks env.linkEnvs env.matchedDevices range [] 0 with
      | (Except.error e, effs) => (Except.error (CtrlError.link e), effs)
      | (Except.ok (ls, alloc), effs) =>
          let effs1 := effs ++
            (if env.serviceActive then [CtrlEffect.stopService] else []) ++
            [CtrlEffect.startService]
          match stabilizeLoop env.polls (-1) 0 env.window with
          | some _ => (Except.ok (ls, alloc), effs1)
          | none =>
              (Except.error CtrlError.stabilizationTimeout,
               effs1 ++ [CtrlEffect.stopService])

/-- `MctpBusController.close` (lines 217-231): close every owned serial
link in order (releasing their EIDs), clear the link list, stop the mctpd
service, and clear the singleton slot `_instance`.  Result: the emptied
link list, the allocated list after the releases, and the singleton-slot
occupancy afterward (always `false`). -/
def controllerClose (links : List LinkState) (allocated : List Nat) :
    List LinkState × List Nat × Bool :=
  let alloc1 := links.foldl (fun acc l => (serialLinkClose l acc).2) allocated
  ([], alloc1, false)

/-! ## Raw message transmission (send_raw_mctp_message /
send_mctp_datagram) -/

/-- Linux kernel socket family for MCTP, `MctpBusController.AF_MCTP`. -/
def AF_MCTP : Nat := 45

/-- `struct.pack("HHBBBBB", ...)` on a little-endian platform: two
16-bit fields then five 8-bit fields, as a byte list; `none` models the
`struct.error` raised when a value does not fit its field. -/
def pack_HHBBBBB (h1 h2 b1 b2 b3 b4 b5 : Nat) : Option (List Nat) :=
  if h1 < 2 ^ 16 ∧ h2 < 2 ^ 16 ∧ b1 < 2 ^ 8 ∧ b2 < 2 ^ 8 ∧
      b3 < 2 ^ 8 ∧ b4 < 2 ^ 8 ∧ b5 < 2 ^ 8 then
    some [h1 % 2 ^ 8, h1 / 2 ^ 8, h2 % 2 ^ 8, h2 / 2 ^ 8, b1, b2, b3, b4, b5]
  else none

/-- OS behaviour of one send attempt: whether `socket.socket` succeeds,
and whether `sendto` succeeds for a given address record and payload.
Any raised exception is caught by the method and collapsed to `False`. -/
structure SendEnv where
  socketOk : Bool
  sendtoOk : List Nat → List Nat → Bool

/-- `MctpBusController.send_raw_mctp_message` (lines 310-339): open an
AF_MCTP datagram socket, pack the sockaddr
`(AF_MCTP, network_id, 0, 0, destination_eid, 1, 1)` — tag owner 1,
message type 1 — send the payload, return `True`; any exception yields
`False`. -/
def send_raw_mctp_message (env : SendEnv) (networkId destEid : Nat)
    (payload : List Nat) : Bool :=
  if env.socketOk = false then false
  else
    match pack_HHBBBBB AF_MCTP networkId 0 0 destEid 1 1 with
    | none => false
    | some sockaddr => env.sendtoOk sockaddr payload

/-- `MctpBusController.send_mctp_datagram` (lines 341-371): identical
shape, with the caller-supplied `tag_owner` in the sixth field and
`message_type` in the seventh. -/
def send_mctp_datagram (env : SendEnv) (networkId destEid msgType tagOwner : Nat)
    (payload : List Nat) : Bool :=
  if env.socketOk = false then false
  else
    match pack_HHBBBBB AF_MCTP networkId 0 0 destEid tagOwner msgType with
    | none => false
    | some sockaddr => env.sendtoOk sockaddr payload

/-! ## Invariant and concrete environments used by the theorems -/

/-- The invariant tying the class-wide lists together: every allocated
EID lies in the configured range, no EID is allocated twice, and the
live links' EIDs are exactly the allocated list. -/
def PoolInv (range : List Nat) (st : PoolState) : Prop :=
  (∀ e ∈ st.allocated, e ∈ range) ∧ st.allocated.Nodup ∧
    st.liveEids = st.allocated

/-- The conditions under which `__init__` reaches the stabilization loop:
singleton slot free, at least one pattern, at least one matched device,
enough EIDs, and every serial-link open succeeded. -/
def ReachesStabilization (env : CtrlEnv) : Prop :=
  env.instanceExists = false ∧ env.patterns ≠ [] ∧
    env.matchedDevices ≠ [] ∧
    ¬ (configRange env).length < env.matchedDevices.length ∧
    (openLinks env.linkEnvs env.matchedDevices (configRange env) [] 0).1.isOk
      = true

/-- A link environment in which the serial device does not exist and
every external step would fail. -/
def linkEnvNoDev : LinkEnv := ⟨false, 1, none, false, false⟩

/-- A link environment in which every external step succeeds. -/
def linkEnvAllOk : LinkEnv := ⟨true, 7, some "mctpserial0", true, true⟩

/-- Controller environment whose config declares `[0, 10]` and that
matches one device: exercises the swallowed config assertion. -/
def ctrlEnvZeroRange : CtrlEnv :=
  { instanceExists := false
    patterns := ["/dev/ttyUSB*"]
    fileLines := some [ConfigLine.decl 0 10]
    matchedDevices := ["/dev/ttyUSB0"]
    linkEnvs := fun _ => linkEnvAllOk
    serviceActive := false
    polls := fun _ => 0
    window := 30 }

/-- Controller environment with range `[8, 9]` (two EIDs) but three
matched devices. -/
def ctrlEnvTooMany : CtrlEnv :=
  { instanceExists := false
    patterns := ["/dev/ttyUSB*"]
    fileLines := some [ConfigLine.decl 8 9]
    matchedDevices := ["/dev/ttyUSB0", "/dev/ttyUSB1", "/dev/ttyUSB2"]
    linkEnvs := fun _ => linkEnvAllOk
    serviceActive := false
    polls := fun _ => 0
    window := 30 }

/-- Controller environment in which the singleton slot is occupied. -/
def ctrlEnvBusy : CtrlEnv :=
  { instanceExists := true
    patterns := []
    fileLines := none
    matchedDevices := []
    linkEnvs := fun _ => linkEnvNoDev
    serviceActive := false
    polls := fun _ => 0
    window := 0 }

/-- The same environment with the singleton slot free. -/
def ctrlEnvFree : CtrlEnv := { ctrlEnvBusy with instanceExists := false }

/-- Controller environment that reaches the stabilization loop but whose
endpoint counts keep growing, so discovery never stabilizes within the
window. -/
def ctrlEnvNoStab : CtrlEnv :=
  { instanceExists := false
    patterns := ["/dev/ttyUSB*"]
    fileLines := some [ConfigLine.decl 8 10]
    matchedDevices := ["/dev/ttyUSB0"]
    linkEnvs := fun _ => linkEnvAllOk
    serviceActive := false
    polls := fun i => i
    window := 2 }

/-- Two serial-link views for the correlation witness: EIDs 9 and 8. -/
def witnessLinks : List SerialLinkView :=
  [⟨some 9, some "mctpserial1", some "/dev/ttyUSB1"⟩,
   ⟨some 8, some "mctpserial0", some "/dev/ttyUSB0"⟩]

/-! ## C10: raw send refines the parametrized datagram send -/

/-- C10: for every network id, destination EID and payload,
`send_raw_mctp_message(network_id, destination_eid, payload)` behaves
identically to `send_mctp_datagram(network_id, destination_eid, 1, 1,
payload)`: both build the address record with tag owner 1 and message
type 1 and return the same boolean, in every send environment. -/
theorem send_raw_eq_datagram (env : SendEnv) (networkId destEid : Nat)
    (payload : List Nat) :
    send_raw_mctp_message env networkId destEid payload =
      send_mctp_datagram env networkId destEid 1 1 payload := rfl

/-! ## C8: range parsing normalizes and rejects zero bounds -/

/-- C8: for all integer bounds s, e with s > 0 and e > 0, parsing a
`dynamic_eid_range` declaration `[s, e]` succeeds and assigns the
inclusive interval from `min s e` up to `max s e` (bounds normalized
low-to-high); a declaration with s = 0 or e = 0 is rejected by the parse
loop (its positivity assertion fails, so no range is assigned). -/
theorem eid_range_parse_normalizes (s e : Nat) (hs : 0 < s) (he : 0 < e) :
    configure_eid_range (some [ConfigLine.decl s e]) =
      ConfigOutcome.assigned (eidRangeList (min s e) (max s e)) ∧
    min s e ≤ max s e ∧
    (∀ x, x ∈ eidRangeList (min s e) (max s e) ↔
      min s e ≤ x ∧ x ≤ max s e) ∧
    (∀ a b : Nat, a = 0 ∨ b = 0 →
      configureEidRangeCore [ConfigLine.decl a b] =
        ConfigCoreResult.errInvalidValues ∧
      configure_eid_range (some [ConfigLine.decl a b]) =
        ConfigOutcome.swallowed) := by
  have hmin : 0 < min s e := lt_min hs he
  have hmax : 0 < max s e := lt_of_lt_of_le hs (le_max_left s e)
  refine ⟨?_, min_le_max, ?_, ?_⟩
  · simp [configure_eid_range, configureEidRangeCore, hmin, hmax]
  · intro x
    rw [eidRangeList, List.mem_range'_1]
    omega
  · intro a b hab
    have hminab : min a b = 0 := by omega
    constructor
    · simp [configureEidRangeCore, hminab]
    · simp [configure_eid_range, configureEidRangeCore, hminab]

/-- Witness for C8 at the reversed declaration `[254, 8]`: accepted and
normalized to the inclusive interval starting at 8. -/
theorem eid_range_parse_normalizes_witness :
    configure_eid_range (some [ConfigLine.decl 254 8]) =
      ConfigOutcome.assigned (eidRangeList 8 254) ∧
    configureEidRangeCore [ConfigLine.decl 0 10] =
      ConfigCoreResult.errInvalidValues :=
  ⟨(eid_range_parse_normalizes 254 8 (by decide) (by decide)).1,
   ((eid_range_parse_normalizes 254 8 (by decide) (by decide)).2.2.2 0 10
     (Or.inl rfl)).1⟩

/-! ## C3: config errors are swallowed, construction does not raise a
config error -/

/-- C3 (divergence witness): on a config whose only declaration is
`dynamic_eid_range = [0, 10]`, the positivity assertion inside
`_configure_eid_range` fires (`errInvalidValues`), but the method's own
`except Exception` handler catches that AssertionError and returns
normally with `_eid_range` still `[]`.  Construction therefore proceeds
past the config step and aborts only later, at the insufficient-EIDs
assertion — not with a config error (the controller has no config-error
outcome at all). -/
theorem config_assert_swallowed :
    configureEidRangeCore [ConfigLine.decl 0 10] =
      ConfigCoreResult.errInvalidValues ∧
    configure_eid_range (some [ConfigLine.decl 0 10]) =
      ConfigOutcome.swallowed ∧
    configRange ctrlEnvZeroRange = [] ∧
    controllerInit ctrlEnvZeroRange =
      (Except.error CtrlError.insufficientResources, []) := by
  refine ⟨rfl, rfl, rfl, rfl⟩

/-! ## C5: too many matches abort before any effect -/

/-- C5: whenever the deduplicated device matches outnumber the configured
EID range, construction fails at the insufficient-EIDs assertion with an
empty effect trace: no serial link is opened and the daemon is neither
stopped nor started. -/
theorem insufficient_aborts_before_effects (env : CtrlEnv)
    (h1 : env.instanceExists = false)
    (h2 : env.patterns ≠ [])
    (h3 : env.matchedDevices ≠ [])
    (h4 : (configRange env).length < env.matchedDevices.length) :
    controllerInit env = (Except.error CtrlError.insufficientResources, []) ∧
    (∀ d, CtrlEffect.openLink d ∉ (controllerInit env).2) ∧
    CtrlEffect.stopService ∉ (controllerInit env).2 ∧
    CtrlEffect.startService ∉ (controllerInit env).2 := by
  have hmain : controllerInit env =
      (Except.error CtrlError.insufficientResources, []) := by
    simp [controllerInit, h1, h2, h3, h4]
  refine ⟨hmain, ?_, ?_, ?_⟩ <;> simp [hmain]

/-- Witness for C5: range `[8, 9]` (two EIDs), three matched devices. -/
theorem insufficient_aborts_before_effects_witness :
    controllerInit ctrlEnvTooMany =
      (Except.error CtrlError.insufficientResources, []) :=
  (insufficient_aborts_before_effects ctrlEnvTooMany rfl (by decide)
    (by decide) (by decide)).1

/-! ## C7: NotFound on missing device path -/

/-- C7 counterexample: the claim "a nonexistent devicePath fails NotFound
regardless of whether any EIDs remain available" is false.  With the pool
exhausted (candidate EID 8 already allocated) and a nonexistent device
path, `__init__` raises the EID-exhaustion assertion — the availability
check on line 73 of MctpSerialLink.py runs before the path check on
line 77 — so the failure is ResourceExhausted, not NotFound. -/
theorem open_notfound_claim_refuted :
    ¬ (linkEnvNoDev.devExists = false →
        (serialLinkInit linkEnvNoDev "/dev/ttyUSB9" [8] [8]).1 =
          Except.error InitError.notFound) := by
  intro hclaim
  have h := hclaim rfl
  have h0 : (serialLinkInit linkEnvNoDev "/dev/ttyUSB9" [8] [8]).1 =
      Except.error InitError.resourceExhausted := rfl
  rw [h0] at h
  simp at h

/-- C7 amended: for every devicePath that does not exist, opening a
serial link fails NotFound — before the EID of step 6 is registered and
with all instance fields still clear — provided at least one candidate
EID is unallocated; when the pool is exhausted, the EID-availability
check (which precedes path validation) fails first with
ResourceExhausted. -/
theorem open_notfound_amended (env : LinkEnv) (devicePath : String)
    (allowedEids allocated : List Nat)
    (hdev : env.devExists = false)
    (havail : ∃ e ∈ allowedEids, e ∉ allocated) :
    (serialLinkInit env devicePath allowedEids allocated).1 =
      Except.error InitError.notFound ∧
    (serialLinkInit env devicePath allowedEids allocated).2.1 = emptyLink ∧
    (serialLinkInit env devicePath allowedEids allocated).2.2 = allocated := by
  obtain ⟨e, hmem, hfree⟩ := havail
  have hfilter : e ∈ allowedEids.filter (fun x => !decide (x ∈ allocated)) :=
    List.mem_filter.mpr ⟨hmem, by simpa using hfree⟩
  cases hr : allowedEids.filter (fun x => !decide (x ∈ allocated)) with
  | nil => rw [hr] at hfilter; exact absurd hfilter (List.not_mem_nil e)
  | cons nextEid rest =>
      refine ⟨?_, ?_, ?_⟩ <;> simp [serialLinkInit, hr, hdev]

/-- Witness for the amended C7: device absent, EID 8 free. -/
theorem open_notfound_amended_witness :
    (serialLinkInit linkEnvNoDev "/dev/ttyUSB9" [8] []).1 =
      Except.error InitError.notFound ∧
    (serialLinkInit linkEnvNoDev "/dev/ttyUSB9" [8] []).2.1 = emptyLink ∧
    (serialLinkInit linkEnvNoDev "/dev/ttyUSB9" [8] []).2.2 = [] :=
  open_notfound_amended linkEnvNoDev "/dev/ttyUSB9" [8] [] rfl
    ⟨8, by decide, by decide⟩

/-! ## C4: close is idempotent and releases the EID -/

/-- C4: `close()` is idempotent — a second `close()` on an already-closed
link (or a close on a link whose `__init__` never completed) is a no-op —
and after an `__init__` attempt followed by `close()` the link's fields
are all cleared, the allocated list is exactly what it was before the
open (so the link's EID, if one was assigned, is no longer allocated),
for every environment, including every failed mid-construction open. -/
theorem close_idempotent_and_releases (l : LinkState) (alloc : List Nat)
    (env : LinkEnv) (devicePath : String)
    (allowedEids allocated : List Nat) :
    serialLinkClose (serialLinkClose l alloc).1 (serialLinkClose l alloc).2 =
      serialLinkClose l alloc ∧
    (initThenClose env devicePath allowedEids allocated).1 = emptyLink ∧
    (initThenClose env devicePath allowedEids allocated).2 = allocated ∧
    (∀ e, (serialLinkInit env devicePath allowedEids allocated).2.1.eid =
        some e →
      e ∉ (initThenClose env devicePath allowedEids allocated).2) := by
  have hrelease :
      (initThenClose env devicePath allowedEids allocated).2 = allocated ∧
      (∀ e, (serialLinkInit env devicePath allowedEids allocated).2.1.eid =
          some e → e ∉ allocated) := by
    cases hr : allowedEids.filter (fun x => !decide (x ∈ allocated)) with
    | nil =>
        constructor
        · simp [initThenClose, serialLinkInit, serialLinkClose, hr, emptyLink]
        · intro e he
          rw [show (serialLinkInit env devicePath allowedEids allocated).2.1 =
              emptyLink by simp [serialLinkInit, hr]] at he
          exact absurd he (by simp [emptyLink])
    | cons nextEid rest =>
        have hfree : nextEid ∉ allocated := by
          have hmem : nextEid ∈
              allowedEids.filter (fun x => !decide (x ∈ allocated)) := by
            rw [hr]; exact List.mem_cons_self nextEid rest
          simpa using (List.mem_filter.mp hmem).2
        cases hdev : env.devExists with
        | false =>
            constructor
            · simp [initThenClose, serialLinkInit, serialLinkClose, hr, hdev,
                emptyLink]
            · intro e he
              rw [show (serialLinkInit env devicePath allowedEids
                  allocated).2.1 = emptyLink by
                  simp [serialLinkInit, hr, hdev]] at he
              exact absurd he (by simp [emptyLink])
        | true =>
            cases hif : env.newInterface with
            | none =>
                constructor
                · simp [initThenClose, serialLinkInit, serialLinkClose, hr,
                    hdev, hif, emptyLink]
                · intro e he
                  have : (serialLinkInit env devicePath allowedEids
                      allocated).2.1.eid = none := by
                    simp [serialLinkInit, hr, hdev, hif, emptyLink]
                  rw [this] at he; exact absurd he (by simp)
            | some ifname =>
                cases hup : env.linkUpOk with
                | false =>
                    constructor
                    · simp [initThenClose, serialLinkInit, serialLinkClose,
                        hr, hdev, hif, hup, emptyLink]
                    · intro e he
                      have : (serialLinkInit env devicePath allowedEids
                          allocated).2.1.eid = none := by
                        simp [serialLinkInit, hr, hdev, hif, hup, emptyLink]
                      rw [this] at he; exact absurd he (by simp)
                | true =>
                    cases haddr : env.addrAddOk with
                    | false =>
                        constructor
                        · simp [initThenClose, serialLinkInit,
                            serialLinkClose, hr, hdev, hif, hup, haddr,
                            emptyLink]
                        · intro e he
                          have : (serialLinkInit env devicePath allowedEids
                              allocated).2.1.eid = none := by
                            simp [serialLinkInit, hr, hdev, hif, hup, haddr,
                              emptyLink]
                          rw [this] at he; exact absurd he (by simp)
                    | true =>
                        have herase :
                            (allocated ++ [nextEid]).erase nextEid =
                              allocated := by
                          rw [List.erase_append_right [nextEid]
                            (by simpa using hfree)]
                          simp
                        constructor
                        · simp [initThenClose, serialLinkInit,
                            serialLinkClose, hr, hdev, hif, hup, haddr,
                            emptyLink, herase]
                        · intro e he
                          have : (serialLinkInit env devicePath allowedEids
                              allocated).2.1.eid = some nextEid := by
                            simp [serialLinkInit, hr, hdev, hif, hup, haddr,
                              emptyLink]
                          rw [this] at he
                          cases he
                          exact hfree
  refine ⟨?_, ?_, hrelease.1, ?_⟩
  · rfl
  · cases hr2 : serialLinkInit env devicePath allowedEids allocated with
    | mk res st => simp [initThenClose, serialLinkClose, hr2]
  · intro e he
    rw [hrelease.1]
    exact hrelease.2 e he

/-- Witness for C4: a successful open of `/dev/ttyUSB0` with candidate
EIDs {8, 9} assigns EID 8; after `close()` EID 8 is no longer in the
allocated list. -/
theorem close_idempotent_and_releases_witness :
    8 ∉ (initThenClose linkEnvAllOk "/dev/ttyUSB0" [8, 9] []).2 :=
  (close_idempotent_and_releases emptyLink [] linkEnvAllOk "/dev/ttyUSB0"
    [8, 9] []).2.2.2 8 rfl

/-! ## C6: singleton controller -/

/-- C6: at most one operational controller per process — constructing a
controller while the singleton slot `_instance` is occupied fails
immediately at the first assertion with no external effect; `close()`
always leaves the slot cleared; and with the slot free the singleton
assertion can never be the failure, so a new controller may be
constructed afterward. -/
theorem controller_singleton (env envFree : CtrlEnv)
    (links : List LinkState) (alloc : List Nat)
    (hbusy : env.instanceExists = true)
    (hfree : envFree.instanceExists = false) :
    controllerInit env = (Except.error CtrlError.singleton, []) ∧
    (controllerClose links alloc).2.2 = false ∧
    (controllerInit envFree).1 ≠ Except.error CtrlError.singleton := by
  refine ⟨by simp [controllerInit, hbusy], rfl, ?_⟩
  intro hcontra
  unfold controllerInit at hcontra
  rw [if_neg (by simp [hfree])] at hcontra
  simp only [] at hcontra
  repeat' split at hcontra
  all_goals simp_all

/-- Witness for C6: with the slot occupied construction fails with the
singleton error and no effects; close clears the slot; with the slot
free the singleton error cannot occur. -/
theorem controller_singleton_witness :
    controllerInit ctrlEnvBusy = (Except.error CtrlError.singleton, []) ∧
    (controllerClose [] []).2.2 = false ∧
    (controllerInit ctrlEnvFree).1 ≠ Except.error CtrlError.singleton :=
  controller_singleton ctrlEnvBusy ctrlEnvFree [] [] rfl rfl

/-! ## C9: endpoint correlation -/

/-- C9: for every discovered endpoint record built by `_get_properties`,
if some locally-owned serial link holds the endpoint's EID then the
record carries that (first matching) link's interface name and device
path under the `link_name`/`device_path` keys; if no local link shares
the EID, those two keys are absent; the mandatory fields are always the
queried EID, network id and object path. -/
theorem endpoint_correlation (links : List SerialLinkView)
    (eid networkId : Nat) (path : String) :
    ((∀ l ∈ links, l.eid ≠ some eid) →
      (get_properties links eid networkId path).correlated = none) ∧
    (∀ l, get_link_from_eid links eid = some l →
      (get_properties links eid networkId path).correlated =
        some (l.linkName, l.devicePath)) ∧
    ((∃ l ∈ links, l.eid = some eid) →
      ((get_properties links eid networkId path).correlated).isSome =
        true) ∧
    (get_properties links eid networkId path).eid = eid ∧
    (get_properties links eid networkId path).networkId = networkId ∧
    (get_properties links eid networkId path).path = path := by
  refine ⟨?_, ?_, ?_, ?_, ?_, ?_⟩
  · intro hnone
    have hfind : get_link_from_eid links eid = none := by
      rw [get_link_from_eid, List.find?_eq_none]
      intro l hl
      simpa using hnone l hl
    simp [get_properties, hfind]
  · intro l hl
    simp [get_properties, hl]
  · intro hex
    obtain ⟨l, hl, hleid⟩ := hex
    have hfind : (get_link_from_eid links eid).isSome := by
      rw [get_link_from_eid, List.find?_isSome]
      exact ⟨l, hl, by simp [hleid]⟩
    obtain ⟨l2, hl2⟩ := Option.isSome_iff_exists.mp hfind
    simp [get_properties, hl2]
  all_goals
    cases hfind : get_link_from_eid links eid <;> simp [get_properties, hfind]

/-- Witness for C9: among two links, EID 8 matches the second; the record
carries that link's interface name and device path. -/
theorem endpoint_correlation_witness :
    (get_properties witnessLinks 8 1 "/au/com/codeconstruct/mctp1/networks/1/endpoints/8").correlated =
      some (some "mctpserial0", some "/dev/ttyUSB0") :=
  (endpoint_correlation witnessLinks 8 1
      "/au/com/codeconstruct/mctp1/networks/1/endpoints/8").2.1
    ⟨some 8, some "mctpserial0", some "/dev/ttyUSB0"⟩ rfl

/-! ## C1: EID pool invariants -/

/-- The invariant holds of the initial (module-load) state. -/
theorem poolInv_initial (range : List Nat) : PoolInv range initialPool := by
  refine ⟨?_, ?_, rfl⟩ <;> simp [initialPool, PoolInv]

/-- One open or close step preserves the pool invariant. -/
theorem poolInv_step (range : List Nat) (st st2 : PoolState)
    (hstep : PoolStep range st st2) (hinv : PoolInv range st) :
    PoolInv range st2 := by
  obtain ⟨hsub, hnodup, hlive⟩ := hinv
  cases hstep with
  | openLink eid hmem hfree =>
      refine ⟨?_, ?_, ?_⟩
      · intro e he
        rcases List.mem_append.mp he with h | h
        · exact hsub e h
        · rw [List.mem_singleton.mp h]; exact hmem
      · rw [(List.perm_append_singleton eid st.allocated).nodup_iff,
          List.nodup_cons]
        exact ⟨hfree, hnodup⟩
      · simp [hlive]
  | closeLink eid =>
      refine ⟨?_, hnodup.erase eid, ?_⟩
      · intro e he
        exact hsub e (List.mem_of_mem_erase he)
      · simp [hlive]

/-- Every reachable pool state satisfies the invariant. -/
theorem poolInv_reachable (range : List Nat) (st : PoolState)
    (h : PoolReachable range st) : PoolInv range st := by
  induction h with
  | refl => exact poolInv_initial range
  | tail _ hstep ih => exact poolInv_step range _ _ hstep ih

/-- C1: for every sequence of link open (EID allocate) and close
(EID release) operations from the initial state, every allocated EID lies
in the configured range and no two live serial links hold the same EID at
the same time (the live links' EIDs are pairwise distinct). -/
theorem eid_pool_invariant (range : List Nat) (st : PoolState)
    (h : PoolReachable range st) :
    (∀ e ∈ st.allocated, e ∈ range) ∧ st.liveEids.Nodup := by
  obtain ⟨hsub, hnodup, hlive⟩ := poolInv_reachable range st h
  exact ⟨hsub, hlive ▸ hnodup⟩

/-- Witness for C1: one open step from the initial state with range
{8, 9} allocates EID 8; the invariant conclusions hold of the resulting
state. -/
theorem eid_pool_invariant_witness :
    (∀ e ∈ ([8] : List Nat), e ∈ ([8, 9] : List Nat)) ∧
    ([8] : List Nat).Nodup :=
  eid_pool_invariant [8, 9] ⟨[8], [8]⟩
    (Relation.ReflTransGen.single
      (PoolStep.openLink initialPool 8 (by decide) (by decide)))

/-! ## C2: stabilization loop -/

/-- After the first poll, the loop with `fuel` further iterations allowed
succeeds exactly when some later poll equals its predecessor within the
window. -/
theorem stabilizeLoop_isSome_iff (poll : Nat → Nat) :
    ∀ (f k : Nat),
      (stabilizeLoop poll (poll k) (k + 1) f).isSome = true ↔
        ∃ j, j ≤ f ∧ poll (k + 1 + j) = poll (k + j) := by
  intro f
  induction f with
  | zero =>
      intro k
      constructor
      · intro h
        by_cases hc : (poll (k + 1) : Int) = (poll k : Int)
        · exact ⟨0, Nat.le_refl 0, by exact_mod_cast hc⟩
        · rw [stabilizeLoop, if_neg hc] at h
          simp at h
      · rintro ⟨j, hj, hp⟩
        have hj0 : j = 0 := Nat.le_zero.mp hj
        subst hj0
        have hc : (poll (k + 1) : Int) = (poll k : Int) := by
          exact_mod_cast hp
        rw [stabilizeLoop, if_pos hc]
        rfl
  | succ f ih =>
      intro k
      constructor
      · intro h
        by_cases hc : (poll (k + 1) : Int) = (poll k : Int)
        · exact ⟨0, Nat.zero_le _, by exact_mod_cast hc⟩
        · rw [stabilizeLoop, if_neg hc] at h
          obtain ⟨j, hj, hp⟩ := (ih (k + 1)).mp h
          refine ⟨j + 1, by omega, ?_⟩
          have e1 : k + 1 + (j + 1) = k + 1 + 1 + j := by omega
          have e2 : k + (j + 1) = k + 1 + j := by omega
          rw [e1, e2]
          exact hp
      · rintro ⟨j, hj, hp⟩
        cases j with
        | zero =>
            have hc : (poll (k + 1) : Int) = (poll k : Int) := by
              exact_mod_cast hp
            rw [stabilizeLoop, if_pos hc]
            rfl
        | succ j2 =>
            by_cases hc : (poll (k + 1) : Int) = (poll k : Int)
            · rw [stabilizeLoop, if_pos hc]; rfl
            · rw [stabilizeLoop, if_neg hc]
              apply (ih (k + 1)).mpr
              refine ⟨j2, by omega, ?_⟩
              have e1 : k + 1 + 1 + j2 = k + 1 + (j2 + 1) := by omega
              have e2 : k + 1 + j2 = k + (j2 + 1) := by omega
              rw [e1, e2]
              exact hp

/-- C2: the stabilization loop (1-second polls, `previous_count`
initialized to -1 so the first poll can never match) stops successfully
exactly when two consecutive polls return equal endpoint counts within
the window, a stable count of zero included; otherwise it returns the
timeout, and a construction run that reaches the loop fails with the
stabilization-timeout error exactly when the loop times out. -/
theorem stabilization_loop_exact (poll : Nat → Nat) (window : Nat) :
    ((stabilizeLoop poll (-1) 0 window).isSome = true ↔
      ∃ i, 1 ≤ i ∧ i ≤ window ∧ poll i = poll (i - 1)) ∧
    (stabilizeLoop poll (-1) 0 window = none ↔
      ¬ ∃ i, 1 ≤ i ∧ i ≤ window ∧ poll i = poll (i - 1)) ∧
    stabilizeLoop (fun _ => 0) (-1) 0 30 = some 0 ∧
    (∀ env : CtrlEnv, ReachesStabilization env →
      ((controllerInit env).1 = Except.error CtrlError.stabilizationTimeout ↔
        stabilizeLoop env.polls (-1) 0 env.window = none)) := by
  have hne : ¬ ((poll 0 : Int) = (-1 : Int)) := by omega
  have hfirst : (stabilizeLoop poll (-1) 0 window).isSome = true ↔
      ∃ i, 1 ≤ i ∧ i ≤ window ∧ poll i = poll (i - 1) := by
    cases window with
    | zero =>
        rw [stabilizeLoop, if_neg hne]
        constructor
        · intro h; simp at h
        · rintro ⟨i, h1, h2, _⟩; omega
    | succ f =>
        rw [stabilizeLoop, if_neg hne, stabilizeLoop_isSome_iff poll f 0]
        constructor
        · rintro ⟨j, hj, hp⟩
          refine ⟨j + 1, by omega, by omega, ?_⟩
          have e1 : 0 + 1 + j = j + 1 := by omega
          have e2 : 0 + j = j := by omega
          rw [e1, e2] at hp
          simpa using hp
        · rintro ⟨i, h1, h2, hp⟩
          obtain ⟨j, rfl⟩ : ∃ j, i = j + 1 := ⟨i - 1, by omega⟩
          refine ⟨j, by omega, ?_⟩
          have e1 : 0 + 1 + j = j + 1 := by omega
          have e2 : 0 + j = j := by omega
          rw [e1, e2]
          simpa using hp
  refine ⟨hfirst, ?_, by decide, ?_⟩
  · rw [← hfirst]
    constructor
    · intro h hsome
      rw [h] at hsome
      simp at hsome
    · intro h
      cases hv : stabilizeLoop poll (-1) 0 window with
      | none => rfl
      | some c => exact absurd (by simp [hv]) h
  · intro env hreach
    obtain ⟨h1, h2, h3, h4, h5⟩ := hreach
    rcases hopen : openLinks env.linkEnvs env.matchedDevices (configRange env)
        [] 0 with ⟨res, effs⟩
    rcases res with e | ⟨ls, alloc2⟩
    · rw [hopen] at h5
      simp [Except.isOk, Except.toBool] at h5
    · cases hstab : stabilizeLoop env.polls (-1) 0 env.window with
      | some c => simp [controllerInit, h1, h2, h3, h4, hopen, hstab]
      | none => simp [controllerInit, h1, h2, h3, h4, hopen, hstab]

/-- Witness for C2: an environment that reaches the stabilization loop
with strictly growing endpoint counts fails construction with the
stabilization timeout. -/
theorem stabilization_loop_exact_witness :
    (controllerInit ctrlEnvNoStab).1 =
      Except.error CtrlError.stabilizationTimeout :=
  ((stabilization_loop_exact (fun i => i) 2).2.2.2 ctrlEnvNoStab
      ⟨rfl, by decide, by decide, by decide, rfl⟩).mpr rfl
